import Mathlib

/-!
Verification of the enterprise synthetic-data generator
(`test_data_generator.py`, class `EnterpriseDataGenerator`).

The Python code drives every decision through the global `random` module
(and through `faker` for cosmetic fields).  We embed that source here with
an explicit random-value stream: `Rng` is the list of raw draws that the
process-wide generator would have produced, consumed head first.

* `random.random()`  is modelled by `randFloat`, which turns one raw draw
  `r` into the per-mille value `r % 1000`, i.e. the uniform draw from
  `[0,1)` on the grid of thousandths; every threshold the source compares
  against (0.3, 0.7, 0.8, 0.9, 0.95) is exact on that grid, so a source
  comparison `random.random() < t` becomes `randFloat < 1000 * t` with the
  branch structure preserved exactly.
* `random.randint(a, b)` is modelled by `randint`, returning
  `a + r % (b + 1 - a)`; for `a ≤ b` this is a value in `[a, b]`.
* `random.choice(lst)` is modelled by `randChoice`, returning the element
  at index `r % lst.length` (Python raises IndexError on an empty list;
  the model returns `default`, and theorems that depend on the chosen
  element carry a nonemptiness hypothesis instead).
* `random.sample(pop, k)` is modelled by `sampleGo`: repeatedly pick an
  element at a drawn index and remove it, i.e. sampling without
  replacement.
* `faker` fields and `uuid4`/`hashlib` outputs are opaque to every claim;
  they are modelled as one draw each (`fakeNat` / `fakeStr`), keeping the
  record shape of the source.
* Python `datetime` values are modelled as natural numbers; `datetime.now()`
  becomes an explicit `now` parameter, and `created + timedelta(days=d)`
  becomes `created + d`.

Indexing a Python list out of range raises `IndexError`; the only place
the source can do that is `self.department_names[i]` in
`generate_departments`, so that generator returns `Except PyError`.
-/

namespace NQDB

inductive PyError where
  | indexError
  | valueError
  | stopIteration
  deriving Repr, DecidableEq

abbrev Rng := List ℕ

/-- Consume one raw draw from the random stream. -/
def next (g : Rng) : ℕ × Rng := (g.headD 0, g.tail)

/-- Model of `random.random()`: the draw in thousandths, a value in
`[0, 1000)` standing for `k / 1000 ∈ [0,1)`. -/
def randFloat (g : Rng) : ℕ × Rng := (g.headD 0 % 1000, g.tail)

/-- Model of `random.randint(a, b)` (inclusive bounds, `a ≤ b` at all call sites). -/
def randint (a b : ℕ) (g : Rng) : ℕ × Rng :=
  (a + g.headD 0 % (b + 1 - a), g.tail)

/-- Model of `random.choice(l)`. -/
def randChoice {α} [Inhabited α] (l : List α) (g : Rng) : α × Rng :=
  (l.getD (g.headD 0 % l.length) default, g.tail)

/-- Model of `random.sample(l, k)`: draw without replacement. -/
def sampleGo {α} [Inhabited α] [DecidableEq α] : ℕ → List α → Rng → List α × Rng
  | 0, _, g => ([], g)
  | _ + 1, [], g => ([], g)
  | k + 1, l, g =>
    let x := l.getD (g.headD 0 % l.length) default
    let rest := sampleGo k (l.erase x) g.tail
    (x :: rest.1, rest.2)

/-- Opaque faker / clock value (one draw). -/
def fakeNat (g : Rng) : ℕ × Rng := next g

/-- Opaque faker string value (one draw). -/
def fakeStr (g : Rng) : String × Rng := (toString (g.headD 0), g.tail)

/-- Python `s.replace(chr(95), chr(32))` on the name strings, written with a
structural list map so that proofs can evaluate it. -/
def pyReplaceUnderscore (s : String) : String :=
  String.mk (s.data.map fun c => if c = '_' then ' ' else c)

/-- Python `s.lower()`, written with a structural list map. -/
def pyLower (s : String) : String := String.mk (s.data.map Char.toLower)

/-- Zero-padded decimal rendering, as Python `{:0wd}` formatting. -/
def pad (w n : ℕ) : String :=
  let s := toString n
  String.mk (List.replicate (w - s.length) '0') ++ s

/-- The ordered security scale of the source (`clearance_levels`). -/
def clearanceLevels : List String :=
  ["ÖFFENTLICH", "INTERN", "VERTRAULICH", "GEHEIM", "STRENG_GEHEIM"]

/-- Ordinal of a security level, as Python `clearance_levels.index(s)`
(the argument is a member of the list at every reachable call site). -/
def levelIdx (s : String) : ℕ := clearanceLevels.indexOf s

/-- The department name catalog of the source (`self.department_names`). -/
def departmentNames : List String :=
  ["Geschäftsführung", "Finanzen_Controlling", "Personal_HR", "IT_Digitalisierung",
   "Forschung_Entwicklung", "Produktion", "Qualitätssicherung", "Vertrieb",
   "Marketing", "Einkauf", "Logistik", "Kundendienst", "Recht_Compliance",
   "Sicherheit", "Facility_Management", "Business_Intelligence", "Projektmanagement",
   "Risikomanagement", "Interne_Revision", "Kommunikation_PR", "Umwelt_Nachhaltigkeit",
   "Innovation_Lab", "Datenanalyse", "Cybersecurity", "Change_Management"]

/-- The document type catalog of the source (`self.document_types`). -/
def documentTypes : List String :=
  ["Verträge", "Finanzberichte", "Personalakten", "Technische_Spezifikationen",
   "Strategische_Pläne", "Compliance_Dokumente", "Forschung_Entwicklung",
   "Kundenakten", "Lieferantenverträge", "Sicherheitsrichtlinien"]

/-- The role strings that gate permission upgrades and mutate actions
(lines 294 and 378 of the source use the same three names). -/
def elevatedRoles : List String := ["Abteilungsleiter", "Teamleiter", "Projektleiter"]

/-- Roles drawn for the senior generation band. -/
def seniorRoles : List String := ["Senior_Spezialist", "Teamleiter", "Projektleiter"]

/-- Roles drawn for the staff generation band. -/
def staffRoles : List String := ["Spezialist", "Sachbearbeiter", "Analyst", "Coordinator"]

structure Department where
  id : String
  name : String
  description : String
  security_level : String
  budget : ℕ
  employee_count : ℕ
  location : String
  manager_id : Option String
  parent_department : Option String
  cost_center : String
  created_at : ℕ
  deriving Repr, DecidableEq

instance : Inhabited Department :=
  ⟨{ id := "", name := "", description := "", security_level := "", budget := 0,
     employee_count := 0, location := "", manager_id := none,
     parent_department := none, cost_center := "", created_at := 0 }⟩

structure Employee where
  id : String
  employee_number : String
  first_name : String
  last_name : String
  email : String
  department_id : String
  role : String
  security_clearance : String
  hire_date : ℕ
  salary : ℕ
  phone : String
  office_location : String
  office_room : String
  manager_id : Option String
  active : Bool
  last_login : ℕ
  created_at : ℕ
  deriving Repr, DecidableEq

instance : Inhabited Employee :=
  ⟨{ id := "", employee_number := "", first_name := "", last_name := "", email := "",
     department_id := "", role := "", security_clearance := "", hire_date := 0,
     salary := 0, phone := "", office_location := "", office_room := "",
     manager_id := none, active := false, last_login := 0, created_at := 0 }⟩

structure Document where
  id : String
  title : String
  document_type : String
  security_classification : String
  owner_department_id : String
  creator_employee_id : String
  file_name : String
  file_size_bytes : ℕ
  file_hash : String
  version : String
  status : String
  tags : List String
  retention_period_years : ℕ
  created_at : ℕ
  modified_at : ℕ
  expires_at : ℕ
  project_code : String
  compliance_required : Bool
  encryption_level : String
  deriving Repr, DecidableEq

instance : Inhabited Document :=
  ⟨{ id := "", title := "", document_type := "", security_classification := "",
     owner_department_id := "", creator_employee_id := "", file_name := "",
     file_size_bytes := 0, file_hash := "", version := "", status := "", tags := [],
     retention_period_years := 0, created_at := 0, modified_at := 0, expires_at := 0,
     project_code := "", compliance_required := false, encryption_level := "" }⟩

structure Permission where
  document_id : String
  employee_id : String
  permission_type : String
  granted_by : String
  granted_at : ℕ
  expires_at : Option ℕ
  deriving Repr, DecidableEq

instance : Inhabited Permission :=
  ⟨{ document_id := "", employee_id := "", permission_type := "", granted_by := "",
     granted_at := 0, expires_at := none }⟩

structure AccessEvent where
  id : String
  document_id : String
  employee_id : String
  action : String
  result : String
  reason : Option String
  ip_address : String
  user_agent : String
  session_id : String
  duration_seconds : ℕ
  bytes_transferred : ℕ
  location : String
  timestamp : ℕ
  deriving Repr, DecidableEq

instance : Inhabited AccessEvent :=
  ⟨{ id := "", document_id := "", employee_id := "", action := "", result := "",
     reason := none, ip_address := "", user_agent := "", session_id := "",
     duration_seconds := 0, bytes_transferred := 0, location := "", timestamp := 0 }⟩

/-- Generic counted generation loop: `for i in range(n)` appending one
record per iteration, threading the random stream. -/
def genList {α} (f : ℕ → Rng → α × Rng) : ℕ → ℕ → Rng → List α × Rng
  | _, 0, g => ([], g)
  | s, fuel + 1, g =>
    let x := f s g
    let rest := genList f (s + 1) fuel x.2
    (x.1 :: rest.1, rest.2)

/-! ## OrganizationUnitGenerator (`generate_departments`, lines 99-136) -/

/-- Security level of a department, source lines 110-117. -/
def deptSecurityLevel (nm : String) (g : Rng) : String × Rng :=
  if nm ∈ ["Geschäftsführung", "Sicherheit", "Cybersecurity", "Recht_Compliance"] then
    ("STRENG_GEHEIM", g)
  else if nm ∈ ["Finanzen_Controlling", "Personal_HR", "Interne_Revision"] then
    ("GEHEIM", g)
  else if nm ∈ ["Forschung_Entwicklung", "IT_Digitalisierung", "Risikomanagement"] then
    ("VERTRAULICH", g)
  else
    randChoice ["INTERN", "VERTRAULICH"] g

/-- One department record, source lines 105-133. -/
def genDepartment (i : ℕ) (nm : String) (g : Rng) : Department × Rng :=
  let sl := deptSecurityLevel nm g
  let bu := randint 100000 5000000 sl.2
  let ec := randint 15 50 bu.2
  let lo := randChoice ["Berlin", "München", "Hamburg", "Frankfurt", "Köln"] ec.2
  let pr :=
    if 0 < i then
      let f := randFloat lo.2
      ((if f.1 < 300 then some "DEPT_001" else none), f.2)
    else ((none : Option String), lo.2)
  let cr := fakeNat pr.2
  ({ id := "DEPT_" ++ pad 3 (i + 1),
     name := nm,
     description := "Abteilung für " ++ pyReplaceUnderscore nm,
     security_level := sl.1,
     budget := bu.1,
     employee_count := ec.1,
     location := lo.1,
     manager_id := none,
     parent_department := pr.1,
     cost_center := "CC_" ++ pad 4 (i + 1),
     created_at := cr.1 }, cr.2)

/-- Loop body of `generate_departments`; `names[i]` is Python list indexing
and raises IndexError past the end of the catalog. -/
def genDepartmentsGo (names : List String) : ℕ → ℕ → Rng → Except PyError (List Department × Rng)
  | _, 0, g => .ok ([], g)
  | i, fuel + 1, g =>
    if h : i < names.length then
      let d := genDepartment i names[i] g
      match genDepartmentsGo names (i + 1) fuel d.2 with
      | .ok (ds, g2) => .ok (d.1 :: ds, g2)
      | .error e => .error e
    else .error .indexError

/-- `generate_departments`: `n` is the `TOTAL_DEPARTMENTS` configuration
constant of the source. -/
def generate_departments (n : ℕ) (names : List String) (g : Rng) :
    Except PyError (List Department × Rng) :=
  genDepartmentsGo names 0 n g

/-! ## PersonGenerator (`generate_employees`, lines 138-194) -/

/-- Employee id, source `EMP_{i+1:04d}`. -/
def empId (i : ℕ) : String := "EMP_" ++ pad 4 (i + 1)

/-- Backfill of `departments[i].manager_id`, source lines 144-146. -/
def backfillManagers (depts : List Department) : List Department :=
  depts.enum.map fun p => { p.2 with manager_id := some (empId p.1) }

/-- Role and clearance of employee `i`, source lines 154-169.
`numDepts` is the `TOTAL_DEPARTMENTS` configuration constant. -/
def roleClearance (i numDepts : ℕ) (dept : Department) (g : Rng) :
    (String × String) × Rng :=
  if i < numDepts then
    (("Abteilungsleiter", dept.security_level), g)
  else if i < numDepts * 3 then
    let role := randChoice seniorRoles g
    ((role.1, dept.security_level), role.2)
  else
    let role := randChoice staffRoles g
    let f := randFloat role.2
    if f.1 < 300 then
      ((role.1, clearanceLevels.getD (max 0 (levelIdx dept.security_level - 1)) ""), f.2)
    else
      ((role.1, dept.security_level), f.2)

/-- One employee record, source lines 148-191.  The department is drawn
uniformly from the (already manager-backfilled) department list. -/
def genEmployee (i numDepts : ℕ) (depts : List Department) (g : Rng) :
    Employee × Rng :=
  let dp := randChoice depts g
  let rc := roleClearance i numDepts dp.1 dp.2
  let fn := fakeStr rc.2
  let ln := fakeStr fn.2
  let hire := fakeNat ln.2
  let sal := randint 35000 150000 hire.2
  let ph := fakeStr sal.2
  let roomL := randChoice ["A", "B", "C"] ph.2
  let roomN := randint 100 999 roomL.2
  let fact := randFloat roomN.2
  let ll := fakeNat fact.2
  let cr := fakeNat ll.2
  ({ id := empId i,
     employee_number := "EN" ++ pad 6 (i + 1),
     first_name := fn.1,
     last_name := ln.1,
     email := pyLower (empId i) ++ "@neuroquantum-corp.de",
     department_id := dp.1.id,
     role := rc.1.1,
     security_clearance := rc.1.2,
     hire_date := hire.1,
     salary := sal.1,
     phone := ph.1,
     office_location := dp.1.location,
     office_room := roomL.1 ++ toString roomN.1,
     manager_id := if dp.1.manager_id = some (empId i) then none else dp.1.manager_id,
     active := fact.1 < 950,
     last_login := ll.1,
     created_at := cr.1 }, cr.2)

/-- `generate_employees`: returns the employee list together with the
manager-backfilled department list (the source mutates
`self.departments` in place before the loop). -/
def generate_employees (n numDepts : ℕ) (depts : List Department) (g : Rng) :
    List Employee × List Department × Rng :=
  let depts' := backfillManagers depts
  let es := genList (fun i => genEmployee i numDepts depts') 0 n g
  (es.1, depts', es.2)

/-! ## AssetGenerator (`generate_documents`, lines 196-264) -/

/-- Security classification of a document, source lines 209-216. -/
def docSecurityLevel (t : String) (g : Rng) : String × Rng :=
  if t ∈ ["Personalakten", "Finanzberichte", "Strategische_Pläne"] then
    randChoice ["GEHEIM", "STRENG_GEHEIM"] g
  else if t ∈ ["Verträge", "Compliance_Dokumente", "Sicherheitsrichtlinien"] then
    randChoice ["VERTRAULICH", "GEHEIM"] g
  else if t ∈ ["Technische_Spezifikationen", "Forschung_Entwicklung"] then
    randChoice ["VERTRAULICH", "GEHEIM", "STRENG_GEHEIM"] g
  else
    randChoice ["INTERN", "VERTRAULICH"] g

/-- Tag catalog of the source, lines 246-249. -/
def tagCatalog : List String :=
  ["wichtig", "deadline", "review_required", "confidential",
   "legal", "financial", "technical", "strategic"]

/-- One document record, source lines 202-261.  The owning department is
fetched with `next(d for d in departments if d.id == creator.department_id)`
in the 70% branch; the model uses `find?` (the generator expression would
raise StopIteration when absent, which cannot happen on pipeline data). -/
def genDocument (i : ℕ) (emps : List Employee) (depts : List Department)
    (now : ℕ) (g : Rng) : Document × Rng :=
  let ty := randChoice documentTypes g
  let sec := docSecurityLevel ty.1 ty.2
  let cre := randChoice emps sec.2
  let fOwn := randFloat cre.2
  let own :=
    if fOwn.1 < 700 then
      (((depts.find? fun d => d.id = cre.1.department_id).getD default), fOwn.2)
    else randChoice depts fOwn.2
  let szS := randint 1024 10240 own.2
  let szM := randint 10240 1048576 szS.2
  let szL := randint 1048576 104857600 szM.2
  let fsz := randChoice [szS.1, szM.1, szL.1] szL.2
  let phrase := fakeStr fsz.2
  let fname := fakeStr phrase.2
  let hsh := next fname.2
  let vMaj := randint 1 10 hsh.2
  let vMin := randint 0 9 vMaj.2
  let st := randChoice ["DRAFT", "REVIEW", "APPROVED", "ARCHIVED"] vMin.2
  let tagK := randint 1 4 st.2
  let tags := sampleGo tagK.1 tagCatalog tagK.2
  let ret := randChoice [3, 5, 7, 10, 25] tags.2
  let created := fakeNat ret.2
  let modified := fakeNat created.2
  let expD := randint 365 3650 modified.2
  let projN := randint 1 1000 expD.2
  let fComp := randFloat projN.2
  ({ id := "DOC_" ++ pad 6 (i + 1),
     title := pyReplaceUnderscore ty.1 ++ " - " ++ phrase.1,
     document_type := ty.1,
     security_classification := sec.1,
     owner_department_id := own.1.id,
     creator_employee_id := cre.1.id,
     file_name := "DOC_" ++ pad 6 (i + 1) ++ "_" ++ fname.1,
     file_size_bytes := fsz.1,
     file_hash := toString hsh.1,
     version := toString vMaj.1 ++ "." ++ toString vMin.1,
     status := st.1,
     tags := tags.1,
     retention_period_years := ret.1,
     created_at := created.1,
     modified_at := modified.1,
     expires_at := now + expD.1,
     project_code := "PRJ_" ++ pad 4 projN.1,
     compliance_required := fComp.1 < 300,
     encryption_level := if sec.1 ∈ ["GEHEIM", "STRENG_GEHEIM"] then "AES256" else "AES128" },
   fComp.2)

/-- `generate_documents`: `n` is `TOTAL_DOCUMENTS`. -/
def generate_documents (n : ℕ) (emps : List Employee) (depts : List Department)
    (now : ℕ) (g : Rng) : List Document × Rng :=
  genList (fun i => genDocument i emps depts now) 0 n g

/-! ## PermissionGenerator (`generate_document_permissions`, lines 266-342) -/

/-- Department-member loop, source lines 286-313: one optional grant per
member with sufficient clearance, gated by an 80% roll (the roll is only
drawn when the clearance comparison passes, matching the short-circuit
`and` of line 292). -/
def memberLoop (doc : Document) (now : ℕ) : List Employee → Rng → List Permission × Rng
  | [], g => ([], g)
  | e :: rest, g =>
    if levelIdx doc.security_classification ≤ levelIdx e.security_clearance then
      let f := randFloat g
      if f.1 < 800 then
        let pt :=
          if e.role ∈ elevatedRoles then randChoice ["READ_WRITE", "FULL_ACCESS"] f.2
          else if e.id = doc.creator_employee_id then ("FULL_ACCESS", f.2)
          else ("READ_ONLY", f.2)
        let days := randint 0 30 pt.2
        let f2 := randFloat days.2
        let expiry :=
          if f2.1 < 700 then ((none : Option ℕ), f2.2)
          else
            let d2 := randint 30 365 f2.2
            (some (now + d2.1), d2.2)
        let p : Permission :=
          { document_id := doc.id, employee_id := e.id, permission_type := pt.1,
            granted_by := doc.creator_employee_id,
            granted_at := doc.created_at + days.1, expires_at := expiry.1 }
        let rest' := memberLoop doc now rest expiry.2
        (p :: rest'.1, rest'.2)
      else memberLoop doc now rest f.2
    else memberLoop doc now rest g

/-- Cross-department emission loop, source lines 322-340: each sampled
employee with sufficient clearance yields one time-bounded READ_ONLY grant. -/
def crossLoop (doc : Document) (now : ℕ) : List Employee → Rng → List Permission × Rng
  | [], g => ([], g)
  | e :: rest, g =>
    if levelIdx doc.security_classification ≤ levelIdx e.security_clearance then
      let days := randint 0 60 g
      let d2 := randint 30 180 days.2
      let p : Permission :=
        { document_id := doc.id, employee_id := e.id, permission_type := "READ_ONLY",
          granted_by := doc.creator_employee_id,
          granted_at := doc.created_at + days.1, expires_at := some (now + d2.1) }
      let rest' := crossLoop doc now rest d2.2
      (p :: rest'.1, rest'.2)
    else crossLoop doc now rest g

/-- The body run for a document that passed the 30% cross-department roll,
source lines 317-340: the pool is every employee OUTSIDE the owning
department (with no clearance filter), the sample size is drawn from
`randint(1, min(5, pool size))`, and the clearance gate is applied per
sampled employee afterwards. -/
def crossBlock (doc : Document) (emps : List Employee) (now : ℕ) (g : Rng) :
    List Permission × Rng :=
  let pool := emps.filter fun e => e.department_id ≠ doc.owner_department_id
  let k := randint 1 (min 5 pool.length) g
  let sampled := sampleGo k.1 pool k.2
  crossLoop doc now sampled.1 sampled.2

/-- All permissions of one document, source lines 272-340: the creator
entry is emitted first and unconditionally; then the member loop; then,
behind a 30% roll, the cross-department block. -/
def permsForDoc (doc : Document) (emps : List Employee) (now : ℕ) (g : Rng) :
    List Permission × Rng :=
  let creatorPerm : Permission :=
    { document_id := doc.id, employee_id := doc.creator_employee_id,
      permission_type := "FULL_ACCESS", granted_by := "SYSTEM",
      granted_at := doc.created_at, expires_at := none }
  let members := emps.filter fun e => e.department_id = doc.owner_department_id
  let mp := memberLoop doc now members g
  let f := randFloat mp.2
  if f.1 < 300 then
    let cp := crossBlock doc emps now f.2
    (creatorPerm :: (mp.1 ++ cp.1), cp.2)
  else
    (creatorPerm :: mp.1, f.2)

/-- `generate_document_permissions`. -/
def generate_document_permissions (docs : List Document) (emps : List Employee)
    (now : ℕ) (g : Rng) : List Permission × Rng :=
  match docs with
  | [] => ([], g)
  | doc :: rest =>
    let ps := permsForDoc doc emps now g
    let rest' := generate_document_permissions rest emps now ps.2
    (ps.1 ++ rest'.1, rest'.2)

/-! ## AccessEventGenerator (`generate_access_logs`, lines 344-402) -/

/-- Source line 360: `emp_level >= doc_level and random.random() < 0.9`;
the roll is only drawn when the clearance comparison passes. -/
def accessGranted (e : Employee) (d : Document) (g : Rng) : Bool × Rng :=
  if levelIdx d.security_classification ≤ levelIdx e.security_clearance then
    let f := randFloat g
    (decide (f.1 < 900), f.2)
  else (false, g)

/-- Denial reasons of source lines 364-367. -/
def deniedReasons : List String :=
  ["INSUFFICIENT_CLEARANCE", "DOCUMENT_NOT_FOUND", "PERMISSION_EXPIRED",
   "ACCOUNT_LOCKED", "OUTSIDE_BUSINESS_HOURS"]

/-- Action catalog of source lines 372-374. -/
def actionCatalog : List String :=
  ["VIEW", "DOWNLOAD", "EDIT", "DELETE", "SHARE", "PRINT", "COPY"]

/-- One access log record, source lines 350-397. -/
def genAccessLog (i : ℕ) (docs : List Document) (emps : List Employee) (g : Rng) :
    AccessEvent × Rng :=
  let dc := randChoice docs g
  let ec := randChoice emps dc.2
  let gr := accessGranted ec.1 dc.1 ec.2
  let rr :=
    if gr.1 then (("SUCCESS", (none : Option String)), gr.2)
    else
      let rs := randChoice deniedReasons gr.2
      (("ACCESS_DENIED", some rs.1), rs.2)
  let ac := randChoice actionCatalog rr.2
  let rr2 :=
    if (ac.1 = "EDIT" ∨ ac.1 = "DELETE") ∧ gr.1 = true ∧
        ec.1.role ∉ elevatedRoles ∧ ec.1.id ≠ dc.1.creator_employee_id then
      ("ACCESS_DENIED", (some "INSUFFICIENT_PERMISSIONS" : Option String))
    else rr.1
  let ip := fakeStr ac.2
  let ua := fakeStr ip.2
  let sess := fakeStr ua.2
  let dur := if rr2.1 = "SUCCESS" then randint 1 3600 sess.2 else (0, sess.2)
  let byt :=
    if ac.1 = "DOWNLOAD" ∧ rr2.1 = "SUCCESS" then
      randint 1024 dc.1.file_size_bytes dur.2
    else (0, dur.2)
  let loc := randChoice ["Office", "Home", "Mobile", "External"] byt.2
  let ts := fakeNat loc.2
  ({ id := "LOG_" ++ pad 7 (i + 1),
     document_id := dc.1.id,
     employee_id := ec.1.id,
     action := ac.1,
     result := rr2.1,
     reason := rr2.2,
     ip_address := ip.1,
     user_agent := ua.1,
     session_id := sess.1,
     duration_seconds := dur.1,
     bytes_transferred := byt.1,
     location := loc.1,
     timestamp := ts.1 }, ts.2)

/-- `generate_access_logs`: `n` is `TOTAL_ACCESS_LOGS`. -/
def generate_access_logs (n : ℕ) (docs : List Document) (emps : List Employee)
    (g : Rng) : List AccessEvent × Rng :=
  genList (fun i => genAccessLog i docs emps) 0 n g

/-! ## Derived catalogs, decidability instances and concrete fixtures

The remaining definitions are name groups lifted from the source branches,
decidability instances, and concrete pipeline runs (small counts, explicit
random streams) used by the counterexamples and witnesses below. -/

instance {ε α} [DecidableEq ε] [DecidableEq α] : DecidableEq (Except ε α) :=
  fun x y =>
    match x, y with
    | .ok a, .ok b =>
      if h : a = b then isTrue (by rw [h]) else isFalse (by intro hh; cases hh; exact h rfl)
    | .ok _, .error _ => isFalse (by intro h; cases h)
    | .error _, .ok _ => isFalse (by intro h; cases h)
    | .error a, .error b =>
      if h : a = b then isTrue (by rw [h]) else isFalse (by intro hh; cases hh; exact h rfl)

/-- The deterministic top group of source line 110. -/
def topSecretNames : List String :=
  ["Geschäftsführung", "Sicherheit", "Cybersecurity", "Recht_Compliance"]

/-- The deterministic GEHEIM group of source line 112. -/
def geheimNames : List String := ["Finanzen_Controlling", "Personal_HR", "Interne_Revision"]

/-- The deterministic VERTRAULICH group of source line 114. -/
def vertraulichNames : List String :=
  ["Forschung_Entwicklung", "IT_Digitalisierung", "Risikomanagement"]

/-- Departments produced by a concrete two-unit run (empty random stream:
every draw is 0). -/
def c8Depts : List Department :=
  match generate_departments 2 departmentNames [] with
  | .ok (ds, _) => ds
  | .error _ => []

/-- Departments of a concrete 25-unit run (every draw 0), matching the
configured TOTAL_DEPARTMENTS of the source. -/
def c7Depts : List Department :=
  match generate_departments 25 departmentNames [] with
  | .ok (ds, _) => ds
  | .error _ => []

/-- Eligibility of a person for an asset: the clearance-ordinal gate used
at source lines 292, 327 and 360. -/
def eligB (doc : Document) (e : Employee) : Bool :=
  levelIdx doc.security_classification ≤ levelIdx e.security_clearance

/-- Departments of a concrete one-unit pipeline run (every draw 0): the
single unit is Geschäftsführung with classification STRENG_GEHEIM. -/
def c1Depts : List Department :=
  match generate_departments 1 departmentNames [] with
  | .ok (ds, _) => ds
  | .error _ => []

/-- People of the concrete run: four people; the staff person EMP_0004
draws the lowered clearance GEHEIM. -/
def c1Emps : List Employee := (generate_employees 4 1 c1Depts (List.replicate 48 0)).1

/-- One document of the concrete run, steered to type Personalakten with
classification STRENG_GEHEIM and creator EMP_0004 (whose clearance GEHEIM
is strictly below the classification). -/
def c1Docs : List Document :=
  (generate_documents 1 c1Emps c1Depts 0 ([2, 1, 3] ++ List.replicate 18 0)).1

/-- Permission run in which every member roll fails and the cross-unit roll
fails, so only the unconditional creator entry is emitted. -/
def c1Perms : List Permission :=
  (generate_document_permissions c1Docs c1Emps 0 [800, 800, 800, 800]).1

/-- Permission run with all-zero draws up to a failing cross-unit roll, so
member entries are emitted as well. -/
def c1PermsB : List Permission :=
  (generate_document_permissions c1Docs c1Emps 0 (List.replicate 10 0 ++ [800])).1

/-- Clearance adequacy of one Permission record against the person and
asset tables, as the claim states it. -/
def permRespects (emps : List Employee) (docs : List Document) (p : Permission) : Prop :=
  ∀ e ∈ emps, e.id = p.employee_id → ∀ d ∈ docs, d.id = p.document_id →
    levelIdx d.security_classification ≤ levelIdx e.security_clearance

instance (emps : List Employee) (docs : List Document) (p : Permission) :
    Decidable (permRespects emps docs p) := by
  unfold permRespects
  infer_instance

/-- People of a concrete two-unit run with seven people: EMP_0002 and
EMP_0004 (clearance GEHEIM) and the staff person EMP_0007 (lowered
clearance VERTRAULICH) sit in DEPT_002, everyone else in DEPT_001. -/
def c9Emps : List Employee :=
  (generate_employees 7 2 c8Depts
    (List.replicate 11 0 ++ [1] ++ List.replicate 22 0 ++ [1] ++
     List.replicate 35 0 ++ [1] ++ List.replicate 12 0)).1

/-- One document of that run: type Verträge, classification GEHEIM, owned
by DEPT_001; the cross-unit pool is the three DEPT_002 people of whom two
are clearance-eligible. -/
def c9Doc : Document :=
  (generate_documents 1 c9Emps c8Depts 0 ([0, 1, 0] ++ List.replicate 18 0)).1.getD 0
    default

/-- Hand-picked person record used to instantiate the access-log theorems. -/
def wEmp : Employee :=
  { (default : Employee) with
    id := "EMP_0001"
    security_clearance := "STRENG_GEHEIM" }

/-- Hand-picked asset record used to instantiate the access-log theorems. -/
def wDoc : Document :=
  { (default : Document) with
    id := "DOC_000001"
    security_classification := "INTERN"
    file_size_bytes := 2048
    creator_employee_id := "EMP_0099" }

/-- Hand-picked unit record used to instantiate the document generator. -/
def wDept : Department := (default : Department)

/-! ## Helper lemmas on the random primitives and the loop combinator -/

theorem randChoice_mem {α} [Inhabited α] (l : List α) (g : Rng) (h : l ≠ []) :
    (randChoice l g).1 ∈ l := by
  have hl : 0 < l.length := List.length_pos.2 h
  have hidx : g.headD 0 % l.length < l.length := Nat.mod_lt _ hl
  simp only [randChoice]
  rw [List.getD_eq_getElem _ _ hidx]
  exact List.getElem_mem hidx

theorem randint_mem (a b : ℕ) (g : Rng) (h : a ≤ b) :
    a ≤ (randint a b g).1 ∧ (randint a b g).1 ≤ b := by
  have h1 : 0 < b + 1 - a := by omega
  have h2 : g.headD 0 % (b + 1 - a) < b + 1 - a := Nat.mod_lt _ h1
  simp only [randint]
  omega

theorem sampleGo_subperm {α} [Inhabited α] [DecidableEq α] :
    ∀ (k : ℕ) (l : List α) (g : Rng), List.Subperm (sampleGo k l g).1 l := by
  intro k
  induction k with
  | zero => intro l g; simp [sampleGo]
  | succ k ih =>
    intro l g
    match l with
    | [] => simp [sampleGo]
    | a :: l' =>
      simp only [sampleGo]
      set x := (a :: l').getD (g.headD 0 % (a :: l').length) default with hx
      have hmem : x ∈ a :: l' := by
        have hl : 0 < (a :: l').length := by simp
        have hidx : g.headD 0 % (a :: l').length < (a :: l').length := Nat.mod_lt _ hl
        rw [hx, List.getD_eq_getElem _ _ hidx]
        exact List.getElem_mem hidx
      have hrest := ih ((a :: l').erase x) g.tail
      have hperm : List.Perm (a :: l') (x :: (a :: l').erase x) := List.perm_cons_erase hmem
      rw [hperm.subperm_left]
      exact (List.subperm_cons x).2 hrest

theorem sampleGo_subset {α} [Inhabited α] [DecidableEq α]
    (k : ℕ) (l : List α) (g : Rng) : (sampleGo k l g).1 ⊆ l :=
  (sampleGo_subperm k l g).subset

theorem genList_length {α} (f : ℕ → Rng → α × Rng) :
    ∀ (fuel s : ℕ) (g : Rng), ((genList f s fuel g).1).length = fuel := by
  intro fuel
  induction fuel with
  | zero => intro s g; simp [genList]
  | succ fuel ih => intro s g; simp [genList, ih]

theorem genList_mem {α} (f : ℕ → Rng → α × Rng) :
    ∀ (fuel s : ℕ) (g : Rng), ∀ x ∈ (genList f s fuel g).1,
      ∃ i g', s ≤ i ∧ i < s + fuel ∧ x = (f i g').1 := by
  intro fuel
  induction fuel with
  | zero => intro s g x hx; simp [genList] at hx
  | succ fuel ih =>
    intro s g x hx
    simp only [genList, List.mem_cons] at hx
    rcases hx with rfl | hx
    · exact ⟨s, g, le_refl s, by omega, rfl⟩
    · obtain ⟨i, g', h1, h2, h3⟩ := ih (s + 1) (f s g).2 x hx
      exact ⟨i, g', by omega, by omega, h3⟩

theorem genList_getD {α} (f : ℕ → Rng → α × Rng) (d : α) :
    ∀ (fuel s j : ℕ) (g : Rng), j < fuel →
      ∃ g', ((genList f s fuel g).1).getD j d = (f (s + j) g').1 := by
  intro fuel
  induction fuel with
  | zero => intro s j g hj; omega
  | succ fuel ih =>
    intro s j g hj
    match j with
    | 0 => exact ⟨g, by simp [genList]⟩
    | j + 1 =>
      obtain ⟨g', hg'⟩ := ih (s + 1) j (f s g).2 (by omega)
      refine ⟨g', ?_⟩
      simpa [genList, Nat.add_assoc, Nat.add_comm 1 j] using hg'

theorem getD_mem_of_lt {α} [Inhabited α] {l : List α} {n : ℕ} (h : n < l.length) :
    l.getD n default ∈ l := by
  rw [List.getD_eq_getElem _ _ h]
  exact List.getElem_mem h

theorem levelIdx_le_five (s : String) : levelIdx s ≤ 5 := by
  have h := List.indexOf_le_length (a := s) (l := clearanceLevels)
  simpa [clearanceLevels] using h

/-! ## Lemmas about `generate_departments` -/

theorem deptSecurityLevel_spec (nm : String) (g : Rng) :
    (nm ∈ topSecretNames → (deptSecurityLevel nm g).1 = "STRENG_GEHEIM") ∧
    (nm ∉ topSecretNames → nm ∈ geheimNames → (deptSecurityLevel nm g).1 = "GEHEIM") ∧
    (nm ∉ topSecretNames → nm ∉ geheimNames → nm ∈ vertraulichNames →
      (deptSecurityLevel nm g).1 = "VERTRAULICH") ∧
    (nm ∉ topSecretNames → nm ∉ geheimNames → nm ∉ vertraulichNames →
      (deptSecurityLevel nm g).1 ∈ (["INTERN", "VERTRAULICH"] : List String)) := by
  simp only [deptSecurityLevel, topSecretNames, geheimNames, vertraulichNames]
  refine ⟨fun h1 => by simp [h1], fun h1 h2 => by simp [h1, h2], fun h1 h2 h3 => by
    simp [h1, h2, h3], fun h1 h2 h3 => ?_⟩
  rw [if_neg h1, if_neg h2, if_neg h3]
  exact randChoice_mem _ _ (by simp)

theorem genDepartmentsGo_oob (names : List String) :
    ∀ (fuel i : ℕ) (g : Rng), i ≤ names.length → names.length < i + fuel →
      genDepartmentsGo names i fuel g = .error .indexError := by
  intro fuel
  induction fuel with
  | zero => intro i g h1 h2; omega
  | succ fuel ih =>
    intro i g h1 h2
    simp only [genDepartmentsGo]
    rcases Nat.lt_or_ge i names.length with hlt | hge
    · rw [dif_pos hlt, ih (i + 1) _ (by omega) (by omega)]
    · rw [dif_neg (by omega)]

theorem genDepartmentsGo_ok (names : List String) :
    ∀ (fuel i : ℕ) (g : Rng), i + fuel ≤ names.length →
      ∃ ds g', genDepartmentsGo names i fuel g = .ok (ds, g') ∧
        ds.length = fuel ∧ ds.map Department.name = (names.drop i).take fuel := by
  intro fuel
  induction fuel with
  | zero => intro i g h; exact ⟨[], g, rfl, rfl, by simp⟩
  | succ fuel ih =>
    intro i g h
    have hlt : i < names.length := by omega
    obtain ⟨ds, g', hok, hlen, hmap⟩ :=
      ih (i + 1) (genDepartment i names[i] g).2 (by omega)
    refine ⟨(genDepartment i names[i] g).1 :: ds, g', ?_, by simp [hlen], ?_⟩
    · simp only [genDepartmentsGo]
      rw [dif_pos hlt, hok]
    · have hdrop : names.drop i = names[i] :: names.drop (i + 1) :=
        List.drop_eq_getElem_cons hlt
      have hname : (genDepartment i names[i] g).1.name = names[i] := rfl
      rw [List.map_cons, hname, hmap, hdrop, List.take_succ_cons]

theorem genDepartmentsGo_levels (names : List String) :
    ∀ (fuel i : ℕ) (g : Rng) (ds : List Department) (g' : Rng),
      genDepartmentsGo names i fuel g = .ok (ds, g') →
      ∀ d ∈ ds, ∃ gg, d.security_level = (deptSecurityLevel d.name gg).1 := by
  intro fuel
  induction fuel with
  | zero =>
    intro i g ds g' hok d hd
    simp only [genDepartmentsGo] at hok
    cases hok
    simp at hd
  | succ fuel ih =>
    intro i g ds g' hok d hd
    simp only [genDepartmentsGo] at hok
    split at hok
    · split at hok
      · rename_i x ds0 g20 heq
        cases hok
        rcases List.mem_cons.1 hd with rfl | hd'
        · exact ⟨g, rfl⟩
        · exact ih (i + 1) _ _ _ heq d hd'
      · cases hok
    · cases hok

/-! ## Claim C6 -/

/-- Claim C6, counterexample: invoked with a requested unit count (26)
strictly larger than the 25-name catalog, the generator fails with a plain
index-out-of-range error.  The source has no ConfigurationError class at
all; line 107 indexes `self.department_names[i]` directly, which raises
IndexError, so the claimed error type is wrong. -/
theorem C6_counterexample :
    generate_departments 26 departmentNames [] = .error .indexError := by decide

/-- Claim C6 (amended): when the requested unit count exceeds the catalog
length the generator fails with an index-out-of-range error (IndexError,
not ConfigurationError); when the count fits, it returns exactly the
requested number of units whose names are the first `n` catalog names in
order (hence no duplicates and no silent truncation). -/
theorem C6_amended_theorem (n : ℕ) (names : List String) (g : Rng) :
    (names.length < n → generate_departments n names g = .error .indexError) ∧
    (n ≤ names.length → ∃ ds g', generate_departments n names g = .ok (ds, g') ∧
      ds.length = n ∧ ds.map Department.name = names.take n) := by
  constructor
  · intro h
    exact genDepartmentsGo_oob names n 0 g (by omega) (by omega)
  · intro h
    obtain ⟨ds, g', hok, hlen, hmap⟩ := genDepartmentsGo_ok names n 0 g (by omega)
    exact ⟨ds, g', hok, hlen, by simpa using hmap⟩

/-- Claim C6, witness: the amended theorem applied at a concrete in-range
count. -/
theorem C6_witness :
    ∃ ds g', generate_departments 2 departmentNames [] = .ok (ds, g') ∧
      ds.length = 2 ∧ ds.map Department.name = departmentNames.take 2 :=
  (C6_amended_theorem 2 departmentNames []).2 (by decide)

/-! ## Claim C8 -/

/-- Claim C8, counterexample: the unit named Finanzen_Controlling is not in
the governance/security/legal group, yet its classification is the
deterministic GEHEIM (source line 112) rather than a draw from the
restricted two-level set, on every run. -/
theorem C8_counterexample :
    (c8Depts.getD 1 default).name = "Finanzen_Controlling" ∧
    "Finanzen_Controlling" ∉ topSecretNames ∧
    (c8Depts.getD 1 default).security_level = "GEHEIM" ∧
    "GEHEIM" ∉ (["INTERN", "VERTRAULICH"] : List String) := by decide

/-- Claim C8 (amended): classification is deterministic for three fixed
name groups, not one: the governance/security/legal group receives
STRENG_GEHEIM, the finance/HR/audit group receives GEHEIM, and the
R and D/IT/risk group receives VERTRAULICH; every unit outside all three
groups draws its classification from the two-level set INTERN /
VERTRAULICH. -/
theorem C8_amended_theorem (n : ℕ) (names : List String) (g : Rng)
    (ds : List Department) (g' : Rng)
    (hok : generate_departments n names g = .ok (ds, g')) :
    ∀ d ∈ ds,
      (d.name ∈ topSecretNames → d.security_level = "STRENG_GEHEIM") ∧
      (d.name ∉ topSecretNames → d.name ∈ geheimNames → d.security_level = "GEHEIM") ∧
      (d.name ∉ topSecretNames → d.name ∉ geheimNames → d.name ∈ vertraulichNames →
        d.security_level = "VERTRAULICH") ∧
      (d.name ∉ topSecretNames → d.name ∉ geheimNames → d.name ∉ vertraulichNames →
        d.security_level ∈ (["INTERN", "VERTRAULICH"] : List String)) := by
  intro d hd
  obtain ⟨gg, hgg⟩ := genDepartmentsGo_levels names n 0 g ds g' hok d hd
  have hs := deptSecurityLevel_spec d.name gg
  refine ⟨fun h1 => ?_, fun h1 h2 => ?_, fun h1 h2 h3 => ?_, fun h1 h2 h3 => ?_⟩
  · rw [hgg]; exact hs.1 h1
  · rw [hgg]; exact hs.2.1 h1 h2
  · rw [hgg]; exact hs.2.2.1 h1 h2 h3
  · rw [hgg]; exact hs.2.2.2 h1 h2 h3

/-- Claim C8, witness: the amended theorem applied to the first unit of the
concrete two-unit run. -/
theorem C8_witness : (c8Depts.getD 0 default).security_level = "STRENG_GEHEIM" :=
  (C8_amended_theorem 2 departmentNames [] c8Depts [] (by decide)
    (c8Depts.getD 0 default) (getD_mem_of_lt (by decide))).1 (by decide)

/-! ## Lemmas about `generate_employees` -/

theorem roleClearance_lead (i K : ℕ) (d : Department) (g : Rng) (h : i < K) :
    roleClearance i K d g = (("Abteilungsleiter", d.security_level), g) := by
  simp [roleClearance, h]

theorem roleClearance_senior (i K : ℕ) (d : Department) (g : Rng)
    (h1 : ¬ i < K) (h2 : i < K * 3) :
    (roleClearance i K d g).1.1 ∈ seniorRoles ∧
    (roleClearance i K d g).1.2 = d.security_level := by
  simp only [roleClearance, if_neg h1, if_pos h2]
  exact ⟨randChoice_mem _ _ (by simp [seniorRoles]), trivial⟩

theorem roleClearance_staff (i K : ℕ) (d : Department) (g : Rng)
    (h1 : ¬ i < K * 3) :
    (roleClearance i K d g).1.1 ∈ staffRoles ∧
    ((roleClearance i K d g).1.2 = d.security_level ∨
     (roleClearance i K d g).1.2 =
       clearanceLevels.getD (max 0 (levelIdx d.security_level - 1)) "") := by
  have h0 : ¬ i < K := by omega
  simp only [roleClearance, if_neg h0, if_neg h1]
  by_cases hf : (randFloat (randChoice staffRoles g).2).1 < 300
  · simp only [if_pos hf]
    exact ⟨randChoice_mem _ _ (by simp [staffRoles]), .inr trivial⟩
  · simp only [if_neg hf]
    exact ⟨randChoice_mem _ _ (by simp [staffRoles]), .inl trivial⟩

theorem lowered_levelIdx_le (s : String) :
    levelIdx (clearanceLevels.getD (max 0 (levelIdx s - 1)) "") ≤ levelIdx s := by
  have h5 : levelIdx s ≤ 5 := levelIdx_le_five s
  revert h5
  generalize levelIdx s = m
  intro h5
  interval_cases m <;> decide

theorem backfillManagers_length (depts : List Department) :
    (backfillManagers depts).length = depts.length := by
  simp [backfillManagers]

theorem backfillManagers_ne_nil (depts : List Department) (h : depts ≠ []) :
    backfillManagers depts ≠ [] := by
  intro hc
  have := backfillManagers_length depts
  rw [hc] at this
  -- hmm placeholder
  exact h (List.length_eq_zero.1 this.symm ▸ rfl)

theorem backfillManagers_getD (depts : List Department) (j : ℕ) (h : j < depts.length) :
    (backfillManagers depts).getD j default =
      { depts.getD j default with manager_id := some (empId j) } := by
  have hl : j < (backfillManagers depts).length := by rw [backfillManagers_length]; exact h
  rw [List.getD_eq_getElem _ _ hl, List.getD_eq_getElem _ _ h]
  simp [backfillManagers]

theorem genEmployee_fields (i K : ℕ) (depts : List Department) (g : Rng) :
    (genEmployee i K depts g).1.id = empId i ∧
    (genEmployee i K depts g).1.department_id = (randChoice depts g).1.id ∧
    (genEmployee i K depts g).1.role =
      (roleClearance i K (randChoice depts g).1 (randChoice depts g).2).1.1 ∧
    (genEmployee i K depts g).1.security_clearance =
      (roleClearance i K (randChoice depts g).1 (randChoice depts g).2).1.2 ∧
    (genEmployee i K depts g).1.manager_id =
      (if (randChoice depts g).1.manager_id = some (empId i) then none
       else (randChoice depts g).1.manager_id) :=
  ⟨rfl, rfl, rfl, rfl, rfl⟩

theorem employees_getD (n K : ℕ) (depts : List Department) (g : Rng) (j : ℕ)
    (hj : j < n) :
    ∃ g', ((generate_employees n K depts g).1).getD j default =
      (genEmployee j K (backfillManagers depts) g').1 := by
  obtain ⟨g', hg'⟩ :=
    genList_getD (fun i => genEmployee i K (backfillManagers depts)) default n 0 j g hj
  exact ⟨g', by simpa using hg'⟩

theorem employees_lead (n K : ℕ) (depts : List Department) (g : Rng) (j : ℕ)
    (hj : j < n) (hK : j < K) :
    ((generate_employees n K depts g).1.getD j default).id = empId j ∧
    ((generate_employees n K depts g).1.getD j default).role = "Abteilungsleiter" := by
  obtain ⟨g', hg⟩ := employees_getD n K depts g j hj
  obtain ⟨hid, hdep, hrole, hclr, hmgr⟩ :=
    genEmployee_fields j K (backfillManagers depts) g'
  rw [hg]
  exact ⟨hid, by rw [hrole, roleClearance_lead _ _ _ _ hK]⟩

/-! ## Claim C7 -/

/-- Claim C7: role tiers depend only on generation order: indices below the
unit count K are leads, indices below 3K are seniors, later indices are
staff; the record id is EMP_(index+1). -/
theorem C7_theorem (n K : ℕ) (depts : List Department) (g : Rng) (j : ℕ)
    (hj : j < n) :
    ((generate_employees n K depts g).1.getD j default).id = empId j ∧
    (j < K →
      ((generate_employees n K depts g).1.getD j default).role = "Abteilungsleiter") ∧
    (K ≤ j → j < K * 3 →
      ((generate_employees n K depts g).1.getD j default).role ∈ seniorRoles) ∧
    (K * 3 ≤ j →
      ((generate_employees n K depts g).1.getD j default).role ∈ staffRoles) := by
  obtain ⟨g', hg⟩ := employees_getD n K depts g j hj
  rw [hg]
  obtain ⟨hid, hdep, hrole, hclr, hmgr⟩ :=
    genEmployee_fields j K (backfillManagers depts) g'
  refine ⟨hid, fun h => ?_, fun h1 h2 => ?_, fun h => ?_⟩
  · rw [hrole, roleClearance_lead _ _ _ _ h]
  · rw [hrole]
    exact (roleClearance_senior _ _ _ _ (by omega) h2).1
  · rw [hrole]
    exact (roleClearance_staff _ _ _ _ (by omega)).1

/-- Claim C7, witness: with 25 units and 800 people, the person at index 25
(person number 26) draws a senior-band role and the person at index 75
(person number 76) draws a staff-band role. -/
theorem C7_witness :
    ((generate_employees 800 25 c7Depts []).1.getD 25 default).role ∈ seniorRoles ∧
    ((generate_employees 800 25 c7Depts []).1.getD 75 default).role ∈ staffRoles :=
  ⟨(C7_theorem 800 25 c7Depts [] 25 (by decide)).2.2.1 (by decide) (by decide),
   (C7_theorem 800 25 c7Depts [] 75 (by decide)).2.2.2 (by decide)⟩

/-! ## Claim C5 -/

/-- Claim C5: every generated person is assigned a unit drawn from the unit
list, their clearance ordinal never exceeds that unit classification
ordinal, leads and seniors (indices below 3K) receive exactly the unit
classification, staff receive either the unit classification or the level
one ordinal step below it (floored at the bottom of the scale), and the
staff draw takes the lowered branch exactly when the uniform per-mille
roll is below 300, i.e. with probability 0.3. -/
theorem C5_theorem (n K : ℕ) (depts : List Department) (g : Rng)
    (hne : depts ≠ []) :
    (∀ j, j < n →
      ∃ d ∈ (generate_employees n K depts g).2.1,
        ((generate_employees n K depts g).1.getD j default).department_id = d.id ∧
        levelIdx ((generate_employees n K depts g).1.getD j default).security_clearance ≤
          levelIdx d.security_level ∧
        (j < K * 3 →
          ((generate_employees n K depts g).1.getD j default).security_clearance =
            d.security_level) ∧
        (K * 3 ≤ j →
          ((generate_employees n K depts g).1.getD j default).security_clearance =
              d.security_level ∨
          ((generate_employees n K depts g).1.getD j default).security_clearance =
            clearanceLevels.getD (max 0 (levelIdx d.security_level - 1)) "")) ∧
    (∀ (i : ℕ) (d : Department) (a r : ℕ) (rest : Rng), K * 3 ≤ i →
      (roleClearance i K d (a :: r :: rest)).1.2 =
        if r % 1000 < 300 then
          clearanceLevels.getD (max 0 (levelIdx d.security_level - 1)) ""
        else d.security_level) := by
  constructor
  · intro j hj
    obtain ⟨g', hg⟩ := employees_getD n K depts g j hj
    obtain ⟨hid, hdep, hrole, hclr, hmgr⟩ :=
      genEmployee_fields j K (backfillManagers depts) g'
    set dp := (randChoice (backfillManagers depts) g').1 with hdp
    have hdm : dp ∈ (generate_employees n K depts g).2.1 :=
      randChoice_mem _ _ (backfillManagers_ne_nil depts hne)
    refine ⟨dp, hdm, by rw [hg, hdep], ?_, ?_, ?_⟩
    · rw [hg, hclr]
      rcases Nat.lt_or_ge j (K * 3) with h3 | h3
      · rcases Nat.lt_or_ge j K with hK | hK
        · rw [roleClearance_lead _ _ _ _ hK]
        · rw [(roleClearance_senior _ _ _ _ (by omega) h3).2]
      · rcases (roleClearance_staff j K dp _ (by omega)).2 with he | he
        · rw [he]
        · rw [he]
          exact lowered_levelIdx_le _
    · intro h3
      rw [hg, hclr]
      rcases Nat.lt_or_ge j K with hK | hK
      · rw [roleClearance_lead _ _ _ _ hK]
      · exact (roleClearance_senior _ _ _ _ (by omega) h3).2
    · intro h3
      rw [hg, hclr]
      exact (roleClearance_staff j K dp _ (by omega)).2
  · intro i d a r rest h3
    have h0 : ¬ i < K := by omega
    have h1 : ¬ i < K * 3 := by omega
    simp only [roleClearance, if_neg h0, if_neg h1]
    by_cases hf : (randFloat (randChoice staffRoles (a :: r :: rest)).2).1 < 300
    · have hr : r % 1000 < 300 := by
        simpa [randFloat, randChoice] using hf
      simp only [if_pos hf, if_pos hr]
    · have hr : ¬ r % 1000 < 300 := by
        simpa [randFloat, randChoice] using hf
      simp only [if_neg hf, if_neg hr]

/-- Claim C5, witness: the invariant instantiated on the concrete two-unit
run with four people. -/
theorem C5_witness :
    ∃ d ∈ (generate_employees 4 1 c8Depts (List.replicate 48 0)).2.1,
      ((generate_employees 4 1 c8Depts (List.replicate 48 0)).1.getD 3
          default).department_id = d.id ∧
      levelIdx ((generate_employees 4 1 c8Depts (List.replicate 48 0)).1.getD 3
          default).security_clearance ≤ levelIdx d.security_level ∧
      (3 < 1 * 3 →
        ((generate_employees 4 1 c8Depts (List.replicate 48 0)).1.getD 3
            default).security_clearance = d.security_level) ∧
      (1 * 3 ≤ 3 →
        ((generate_employees 4 1 c8Depts (List.replicate 48 0)).1.getD 3
            default).security_clearance = d.security_level ∨
        ((generate_employees 4 1 c8Depts (List.replicate 48 0)).1.getD 3
            default).security_clearance =
          clearanceLevels.getD (max 0 (levelIdx d.security_level - 1)) "") :=
  (C5_theorem 4 1 c8Depts (List.replicate 48 0) (by decide)).1 3 (by decide)

/-! ## Claim C3 -/

/-- Claim C3, counterexample: on a concrete pipeline run with two units and
two people, unit DEPT_002 records EMP_0002 as manager, but EMP_0002 is
assigned to DEPT_001 (the unit a person belongs to is a uniform draw,
independent of which unit records them as manager). -/
theorem C3_counterexample :
    ((generate_employees 2 2 c8Depts (List.replicate 22 0)).2.1.getD 1 default).id =
      "DEPT_002" ∧
    ((generate_employees 2 2 c8Depts (List.replicate 22 0)).2.1.getD 1
        default).manager_id = some "EMP_0002" ∧
    (((generate_employees 2 2 c8Depts (List.replicate 22 0)).1.find? fun e =>
        e.id = "EMP_0002").map Employee.department_id) = some "DEPT_001" ∧
    "DEPT_001" ≠ "DEPT_002" := by decide

/-- Claim C3 (amended): after the person stage, the unit at index i records
manager_id EMP_(i+1), which is the id of the person generated at index i;
whenever that index is inside both the unit range and the lead band, that
person exists and carries the lead role, but their own unit reference is an
independent uniform draw and need not equal the unit that records them.
No person is recorded as their own manager. -/
theorem C3_amended_theorem (n K : ℕ) (depts : List Department) (g : Rng) :
    (∀ j, j < depts.length →
      ((generate_employees n K depts g).2.1.getD j default).manager_id =
        some (empId j)) ∧
    (∀ e ∈ (generate_employees n K depts g).1, e.manager_id ≠ some e.id) ∧
    (∀ j, j < n → j < K →
      ((generate_employees n K depts g).1.getD j default).id = empId j ∧
      ((generate_employees n K depts g).1.getD j default).role =
        "Abteilungsleiter") := by
  refine ⟨fun j hj => ?_, fun e he => ?_, fun j hj hK => ?_⟩
  · have : (generate_employees n K depts g).2.1 = backfillManagers depts := rfl
    rw [this, backfillManagers_getD depts j hj]
  · obtain ⟨i, g', _, _, rfl⟩ :=
      genList_mem (fun i => genEmployee i K (backfillManagers depts)) n 0 g e he
    obtain ⟨hid, hdep, hrole, hclr, hmgr⟩ :=
      genEmployee_fields i K (backfillManagers depts) g'
    rw [hmgr, hid]
    by_cases hc : (randChoice (backfillManagers depts) g').1.manager_id =
        some (empId i)
    · rw [if_pos hc]
      simp
    · rw [if_neg hc]
      exact hc
  · exact employees_lead n K depts g j hj hK

/-- Claim C3, witness: the amended theorem applied to the concrete two-unit
run. -/
theorem C3_witness :
    ((generate_employees 2 2 c8Depts (List.replicate 22 0)).2.1.getD 0
        default).manager_id = some (empId 0) :=
  (C3_amended_theorem 2 2 c8Depts (List.replicate 22 0)).1 0 (by decide)

/-! ## Lemmas about `generate_document_permissions` -/

theorem memberLoop_spec (doc : Document) (now : ℕ) :
    ∀ (ms : List Employee) (g : Rng), ∀ p ∈ (memberLoop doc now ms g).1,
      ∃ e ∈ ms, p.employee_id = e.id ∧ p.document_id = doc.id ∧
        p.granted_by = doc.creator_employee_id ∧
        levelIdx doc.security_classification ≤ levelIdx e.security_clearance := by
  intro ms
  induction ms with
  | nil => intro g p hp; simp [memberLoop] at hp
  | cons e rest ih =>
    intro g p hp
    simp only [memberLoop] at hp
    by_cases hlev : levelIdx doc.security_classification ≤ levelIdx e.security_clearance
    · rw [if_pos hlev] at hp
      by_cases hroll : (randFloat g).1 < 800
      · rw [if_pos hroll] at hp
        rcases List.mem_cons.1 hp with rfl | hp'
        · exact ⟨e, List.mem_cons_self e rest, rfl, rfl, rfl, hlev⟩
        · obtain ⟨e', he', h⟩ := ih _ p hp'
          exact ⟨e', List.mem_cons_of_mem e he', h⟩
      · rw [if_neg hroll] at hp
        obtain ⟨e', he', h⟩ := ih _ p hp
        exact ⟨e', List.mem_cons_of_mem e he', h⟩
    · rw [if_neg hlev] at hp
      obtain ⟨e', he', h⟩ := ih _ p hp
      exact ⟨e', List.mem_cons_of_mem e he', h⟩

theorem crossLoop_spec (doc : Document) (now : ℕ) :
    ∀ (es : List Employee) (g : Rng), ∀ p ∈ (crossLoop doc now es g).1,
      ∃ e ∈ es, p.employee_id = e.id ∧ p.document_id = doc.id ∧
        p.granted_by = doc.creator_employee_id ∧
        p.permission_type = "READ_ONLY" ∧ p.expires_at ≠ none ∧
        levelIdx doc.security_classification ≤ levelIdx e.security_clearance := by
  intro es
  induction es with
  | nil => intro g p hp; simp [crossLoop] at hp
  | cons e rest ih =>
    intro g p hp
    simp only [crossLoop] at hp
    by_cases hlev : levelIdx doc.security_classification ≤ levelIdx e.security_clearance
    · rw [if_pos hlev] at hp
      rcases List.mem_cons.1 hp with rfl | hp'
      · exact ⟨e, List.mem_cons_self e rest, rfl, rfl, rfl, rfl, by simp, hlev⟩
      · obtain ⟨e', he', h⟩ := ih _ p hp'
        exact ⟨e', List.mem_cons_of_mem e he', h⟩
    · rw [if_neg hlev] at hp
      obtain ⟨e', he', h⟩ := ih _ p hp
      exact ⟨e', List.mem_cons_of_mem e he', h⟩

theorem crossLoop_length (doc : Document) (now : ℕ) :
    ∀ (es : List Employee) (g : Rng),
      (crossLoop doc now es g).1.length = (es.filter (eligB doc)).length := by
  intro es
  induction es with
  | nil => intro g; simp [crossLoop]
  | cons e rest ih =>
    intro g
    simp only [crossLoop, List.filter_cons]
    by_cases hlev : levelIdx doc.security_classification ≤ levelIdx e.security_clearance
    · have hb : eligB doc e = true := by simp [eligB, hlev]
      rw [if_pos hlev, hb]
      simp [ih]
    · have hb : ¬ eligB doc e = true := by simp [eligB, hlev]
      rw [if_neg hlev]
      simp only [hb]
      rw [if_neg (by simp at hb; simp [hb])]
      exact ih _

theorem crossBlock_count (doc : Document) (emps : List Employee) (now : ℕ)
    (g : Rng) :
    (crossBlock doc emps now g).1.length ≤
      ((emps.filter fun e => e.department_id ≠ doc.owner_department_id).filter
        (eligB doc)).length := by
  unfold crossBlock
  rw [crossLoop_length]
  exact ((sampleGo_subperm _ _ _).filter (eligB doc)).length_le

theorem crossBlock_spec (doc : Document) (emps : List Employee) (now : ℕ)
    (g : Rng) :
    ∀ p ∈ (crossBlock doc emps now g).1,
      ∃ e ∈ emps.filter fun e => e.department_id ≠ doc.owner_department_id,
        p.employee_id = e.id ∧ p.document_id = doc.id ∧
        p.granted_by = doc.creator_employee_id ∧
        p.permission_type = "READ_ONLY" ∧ p.expires_at ≠ none ∧
        levelIdx doc.security_classification ≤ levelIdx e.security_clearance := by
  intro p hp
  unfold crossBlock at hp
  obtain ⟨e, he, h⟩ := crossLoop_spec doc now _ _ p hp
  exact ⟨e, sampleGo_subset _ _ _ he, h⟩

theorem permsForDoc_spec (doc : Document) (emps : List Employee) (now : ℕ)
    (g : Rng) :
    ∀ p ∈ (permsForDoc doc emps now g).1,
      (p.granted_by = "SYSTEM" ∧ p.document_id = doc.id ∧
        p.employee_id = doc.creator_employee_id) ∨
      ∃ e ∈ emps, p.employee_id = e.id ∧ p.document_id = doc.id ∧
        levelIdx doc.security_classification ≤ levelIdx e.security_clearance := by
  intro p hp
  unfold permsForDoc at hp
  by_cases hroll : (randFloat (memberLoop doc now
      (emps.filter fun e => e.department_id = doc.owner_department_id) g).2).1 < 300
  · rw [if_pos hroll] at hp
    rcases List.mem_cons.1 hp with rfl | hp'
    · exact .inl ⟨rfl, rfl, rfl⟩
    · rcases List.mem_append.1 hp' with hm | hc
      · obtain ⟨e, he, h1, h2, _, h4⟩ := memberLoop_spec doc now _ _ p hm
        exact .inr ⟨e, (List.mem_filter.1 he).1, h1, h2, h4⟩
      · obtain ⟨e, he, h1, h2, _, _, _, h6⟩ := crossBlock_spec doc emps now _ p hc
        exact .inr ⟨e, (List.mem_filter.1 he).1, h1, h2, h6⟩
  · rw [if_neg hroll] at hp
    rcases List.mem_cons.1 hp with rfl | hp'
    · exact .inl ⟨rfl, rfl, rfl⟩
    · obtain ⟨e, he, h1, h2, _, h4⟩ := memberLoop_spec doc now _ _ p hp'
      exact .inr ⟨e, (List.mem_filter.1 he).1, h1, h2, h4⟩

theorem generate_document_permissions_spec (emps : List Employee) (now : ℕ) :
    ∀ (docs : List Document) (g : Rng),
      ∀ p ∈ (generate_document_permissions docs emps now g).1,
        ∃ d ∈ docs,
          (p.granted_by = "SYSTEM" ∧ p.document_id = d.id ∧
            p.employee_id = d.creator_employee_id) ∨
          ∃ e ∈ emps, p.employee_id = e.id ∧ p.document_id = d.id ∧
            levelIdx d.security_classification ≤ levelIdx e.security_clearance := by
  intro docs
  induction docs with
  | nil => intro g p hp; simp [generate_document_permissions] at hp
  | cons doc rest ih =>
    intro g p hp
    simp only [generate_document_permissions] at hp
    rcases List.mem_append.1 hp with hh | ht
    · exact ⟨doc, List.mem_cons_self doc rest, permsForDoc_spec doc emps now g p hh⟩
    · obtain ⟨d, hd, h⟩ := ih _ p ht
      exact ⟨d, List.mem_cons_of_mem doc hd, h⟩

/-! ## Claim C1 -/

/-- Claim C1, counterexample: on a concrete pipeline run, the creator entry
(line 274 of the source, emitted with no clearance check) grants
FULL_ACCESS on a STRENG_GEHEIM document to its creator EMP_0004 whose
clearance is only GEHEIM, so not every emitted Permission satisfies the
clearance invariant. -/
theorem C1_counterexample :
    ¬ ∀ p ∈ c1Perms, permRespects c1Emps c1Docs p := by decide

/-- Claim C1 (amended): every Permission record except the automatic
creator entry (the entry granted by SYSTEM) satisfies the clearance
invariant: the unit-member entries and the cross-unit entries are gated by
the clearance-ordinal comparison, while the creator entry is emitted
unconditionally and carries no such guarantee. -/
theorem C1_amended_theorem (docs : List Document) (emps : List Employee)
    (now : ℕ) (g : Rng) :
    ∀ p ∈ (generate_document_permissions docs emps now g).1,
      p.granted_by ≠ "SYSTEM" →
      ∃ d ∈ docs, p.document_id = d.id ∧ ∃ e ∈ emps, p.employee_id = e.id ∧
        levelIdx d.security_classification ≤ levelIdx e.security_clearance := by
  intro p hp hsys
  obtain ⟨d, hd, hcase⟩ := generate_document_permissions_spec emps now docs g p hp
  rcases hcase with ⟨h1, _, _⟩ | ⟨e, he, h1, h2, h3⟩
  · exact absurd h1 hsys
  · exact ⟨d, hd, h2, e, he, h1, h3⟩

/-- Claim C1, witness: the amended theorem applied to a concrete emitted
unit-member entry. -/
theorem C1_witness :
    ∃ d ∈ c1Docs, (c1PermsB.getD 1 default).document_id = d.id ∧
      ∃ e ∈ c1Emps, (c1PermsB.getD 1 default).employee_id = e.id ∧
        levelIdx d.security_classification ≤ levelIdx e.security_clearance :=
  C1_amended_theorem c1Docs c1Emps 0 (List.replicate 10 0 ++ [800])
    (c1PermsB.getD 1 default) (getD_mem_of_lt (by decide)) (by decide)

/-! ## Claim C9 -/

/-- Claim C9, counterexample: for an asset in the 30% subset the source
samples from ALL cross-unit people (here three) and filters by clearance
only afterwards, so with sample size 1 hitting the one ineligible person
the block emits zero cross-unit grants even though the eligible pool has
two members, contradicting a grantee count sampled between 1 and
min(5, eligible-pool-size).  The last two conjuncts run the full
permission generator on a stream whose four member rolls fail (draw 800)
and whose cross-unit roll passes (draw 0, below 300), with sample size 1
(draw 0) landing on the ineligible person (draw 2): the output is the
single creator entry, i.e. a 30%-selected asset with zero cross-unit
grants. -/
theorem C9_counterexample :
    (crossBlock c9Doc c9Emps 0 [0, 2]).1.length = 0 ∧
    ((c9Emps.filter fun e => e.department_id ≠ c9Doc.owner_department_id).filter
      (eligB c9Doc)).length = 2 ∧
    (generate_document_permissions [c9Doc] c9Emps 0
      [800, 800, 800, 800, 0, 0, 2]).1.length = 1 ∧
    ((generate_document_permissions [c9Doc] c9Emps 0
      [800, 800, 800, 800, 0, 0, 2]).1.getD 0 default).granted_by = "SYSTEM" := by
  decide

/-- Claim C9 (amended): for an asset in the 30% subset, the sample size is
drawn uniformly between 1 and min(5, cross-unit-pool-size) where the pool
is every person outside the owning unit REGARDLESS of clearance; the
clearance gate is applied per sampled person afterwards, so the number of
emitted cross-unit records never exceeds the eligible (clearance-filtered)
pool size and can be zero; every emitted record is READ_ONLY with a
non-null expiry for an eligible cross-unit person. -/
theorem C9_amended_theorem (doc : Document) (emps : List Employee) (now : ℕ)
    (g : Rng)
    (hpool : emps.filter (fun e => e.department_id ≠ doc.owner_department_id) ≠ []) :
    (1 ≤ (randint 1 (min 5
        (emps.filter fun e => e.department_id ≠ doc.owner_department_id).length) g).1 ∧
     (randint 1 (min 5
        (emps.filter fun e => e.department_id ≠ doc.owner_department_id).length) g).1 ≤
       min 5 (emps.filter fun e => e.department_id ≠ doc.owner_department_id).length) ∧
    (crossBlock doc emps now g).1.length ≤
      ((emps.filter fun e => e.department_id ≠ doc.owner_department_id).filter
        (eligB doc)).length ∧
    (∀ p ∈ (crossBlock doc emps now g).1,
      p.permission_type = "READ_ONLY" ∧ p.expires_at ≠ none ∧
      ∃ e ∈ emps.filter fun e => e.department_id ≠ doc.owner_department_id,
        p.employee_id = e.id ∧
        levelIdx doc.security_classification ≤ levelIdx e.security_clearance) := by
  refine ⟨?_, crossBlock_count doc emps now g, fun p hp => ?_⟩
  · have hlen : 1 ≤ min 5
        (emps.filter fun e => e.department_id ≠ doc.owner_department_id).length := by
      have := List.length_pos.2 hpool
      omega
    exact randint_mem 1 _ g hlen
  · obtain ⟨e, he, h1, _, _, h4, h5, h6⟩ := crossBlock_spec doc emps now g p hp
    exact ⟨h4, h5, e, he, h1, h6⟩

/-- Claim C9, witness: the amended theorem applied to the concrete run. -/
theorem C9_witness :
    (crossBlock c9Doc c9Emps 0 [0, 2]).1.length ≤
      ((c9Emps.filter fun e => e.department_id ≠ c9Doc.owner_department_id).filter
        (eligB c9Doc)).length :=
  (C9_amended_theorem c9Doc c9Emps 0 [0, 2] (by decide)).2.1

/-! ## Lemmas about `generate_access_logs` -/

theorem accessGranted_true (e : Employee) (d : Document) (g : Rng)
    (h : (accessGranted e d g).1 = true) :
    levelIdx d.security_classification ≤ levelIdx e.security_clearance ∧
    (randFloat g).1 < 900 := by
  unfold accessGranted at h
  by_cases hlev : levelIdx d.security_classification ≤ levelIdx e.security_clearance
  · rw [if_pos hlev] at h
    exact ⟨hlev, of_decide_eq_true h⟩
  · rw [if_neg hlev] at h
    cases h

theorem genAccessLog_success_spec (i : ℕ) (docs : List Document)
    (emps : List Employee) (g : Rng)
    (h : (genAccessLog i docs emps g).1.result = "SUCCESS") :
    (accessGranted (randChoice emps (randChoice docs g).2).1 (randChoice docs g).1
      (randChoice emps (randChoice docs g).2).2).1 = true ∧
    (((genAccessLog i docs emps g).1.action = "EDIT" ∨
      (genAccessLog i docs emps g).1.action = "DELETE") →
      (randChoice emps (randChoice docs g).2).1.role ∈ elevatedRoles ∨
      (randChoice emps (randChoice docs g).2).1.id =
        (randChoice docs g).1.creator_employee_id) := by
  by_cases hgr : (accessGranted (randChoice emps (randChoice docs g).2).1
      (randChoice docs g).1 (randChoice emps (randChoice docs g).2).2).1 = true
  · refine ⟨hgr, fun hact => ?_⟩
    by_contra hne
    push_neg at hne
    simp only [genAccessLog, hgr] at h hact
    simp only [if_true, eq_self_iff_true, true_and, and_true] at h hact
    rw [if_pos ⟨hact, hne.1, hne.2⟩] at h
    exact absurd h (by decide)
  · exfalso
    have hgr' : (accessGranted (randChoice emps (randChoice docs g).2).1
        (randChoice docs g).1 (randChoice emps (randChoice docs g).2).2).1 = false :=
      Bool.eq_false_iff.2 (fun hc => hgr hc)
    simp only [genAccessLog, hgr'] at h
    simp at h

theorem genAccessLog_forced_denial (i : ℕ) (docs : List Document)
    (emps : List Employee) (g : Rng)
    (hrole : (randChoice emps (randChoice docs g).2).1.role ∉ elevatedRoles)
    (hid : (randChoice emps (randChoice docs g).2).1.id ≠
      (randChoice docs g).1.creator_employee_id)
    (hact : (genAccessLog i docs emps g).1.action = "EDIT" ∨
      (genAccessLog i docs emps g).1.action = "DELETE") :
    (genAccessLog i docs emps g).1.result = "ACCESS_DENIED" := by
  by_cases hgr : (accessGranted (randChoice emps (randChoice docs g).2).1
      (randChoice docs g).1 (randChoice emps (randChoice docs g).2).2).1 = true
  · simp only [genAccessLog, hgr] at hact ⊢
    simp only [if_true, eq_self_iff_true, true_and, and_true] at hact ⊢
    rw [if_pos ⟨hact, hrole, hid⟩]
  · have hgr' : (accessGranted (randChoice emps (randChoice docs g).2).1
        (randChoice docs g).1 (randChoice emps (randChoice docs g).2).2).1 = false :=
      Bool.eq_false_iff.2 (fun hc => hgr hc)
    simp only [genAccessLog, hgr'] at hact ⊢
    simp

theorem randChoice_triple_ge (n a b c : ℕ) (g : Rng)
    (ha : n ≤ a) (hb : n ≤ b) (hc : n ≤ c) :
    n ≤ (randChoice [a, b, c] g).1 := by
  have h := randChoice_mem [a, b, c] g (by simp)
  simp only [List.mem_cons, List.not_mem_nil, or_false] at h
  rcases h with h | h | h <;> rw [h] <;> assumption

theorem generate_documents_file_size (m : ℕ) (emps : List Employee)
    (depts : List Department) (now : ℕ) (g : Rng) :
    ∀ d ∈ (generate_documents m emps depts now g).1, 1024 ≤ d.file_size_bytes := by
  intro d hd
  obtain ⟨i, g', _, _, rfl⟩ := genList_mem _ m 0 g d hd
  show 1024 ≤ (genDocument i emps depts now g').1.file_size_bytes
  dsimp only [genDocument]
  apply randChoice_triple_ge
  · exact (randint_mem 1024 10240 _ (by omega)).1
  · exact Nat.le_trans (by omega) (randint_mem 10240 1048576 _ (by omega)).1
  · exact Nat.le_trans (by omega) (randint_mem 1048576 104857600 _ (by omega)).1

theorem genAccessLog_bytes_duration (i : ℕ) (docs : List Document)
    (emps : List Employee) (g : Rng) :
    (¬((genAccessLog i docs emps g).1.action = "DOWNLOAD" ∧
        (genAccessLog i docs emps g).1.result = "SUCCESS") →
      (genAccessLog i docs emps g).1.bytes_transferred = 0) ∧
    (((genAccessLog i docs emps g).1.action = "DOWNLOAD" ∧
        (genAccessLog i docs emps g).1.result = "SUCCESS") →
      1024 ≤ (randChoice docs g).1.file_size_bytes →
      1024 ≤ (genAccessLog i docs emps g).1.bytes_transferred ∧
      (genAccessLog i docs emps g).1.bytes_transferred ≤
        (randChoice docs g).1.file_size_bytes) ∧
    ((genAccessLog i docs emps g).1.result ≠ "SUCCESS" →
      (genAccessLog i docs emps g).1.duration_seconds = 0) := by
  refine ⟨fun hneg => ?_, fun hpos hfs => ?_, fun hres => ?_⟩
  · dsimp only [genAccessLog] at hneg ⊢
    rw [if_neg hneg]
  · dsimp only [genAccessLog] at hpos hfs ⊢
    rw [if_pos hpos]
    exact randint_mem 1024 _ _ hfs
  · dsimp only [genAccessLog] at hres ⊢
    rw [if_neg hres]

/-! ## Claims C2, C4, C10 -/

/-- Claim C2: every access event with result SUCCESS references a person
whose clearance ordinal is at least the asset classification ordinal, and
at the per-event level a SUCCESS result requires both the clearance
comparison and the 90% roll (per-mille draw below 900) to pass. -/
theorem C2_theorem (n : ℕ) (docs : List Document) (emps : List Employee)
    (g : Rng) (hd : docs ≠ []) (he : emps ≠ []) :
    (∀ ev ∈ (generate_access_logs n docs emps g).1, ev.result = "SUCCESS" →
      ∃ d ∈ docs, ev.document_id = d.id ∧ ∃ e ∈ emps, ev.employee_id = e.id ∧
        levelIdx d.security_classification ≤ levelIdx e.security_clearance) ∧
    (∀ (i : ℕ) (g' : Rng), (genAccessLog i docs emps g').1.result = "SUCCESS" →
      levelIdx (randChoice docs g').1.security_classification ≤
        levelIdx (randChoice emps (randChoice docs g').2).1.security_clearance ∧
      (randFloat (randChoice emps (randChoice docs g').2).2).1 < 900) := by
  constructor
  · intro ev hev hres
    obtain ⟨i, g', _, _, rfl⟩ := genList_mem _ n 0 g ev hev
    refine ⟨(randChoice docs g').1, randChoice_mem docs g' hd, rfl,
      (randChoice emps (randChoice docs g').2).1,
      randChoice_mem emps _ he, rfl, ?_⟩
    exact (accessGranted_true _ _ _
      (genAccessLog_success_spec i docs emps g' hres).1).1
  · intro i g' hres
    exact accessGranted_true _ _ _ (genAccessLog_success_spec i docs emps g' hres).1

/-- Claim C2, witness: the theorem applied to a concrete successful event. -/
theorem C2_witness :
    ∃ d ∈ [wDoc], ((generate_access_logs 1 [wDoc] [wEmp] []).1.getD 0
        default).document_id = d.id ∧
      ∃ e ∈ [wEmp], ((generate_access_logs 1 [wDoc] [wEmp] []).1.getD 0
          default).employee_id = e.id ∧
        levelIdx d.security_classification ≤ levelIdx e.security_clearance :=
  (C2_theorem 1 [wDoc] [wEmp] [] (by decide) (by decide)).1 _
    (getD_mem_of_lt (by decide)) (by decide)

/-- Claim C4: a SUCCESS result on a mutate action (EDIT or DELETE) entails
that the actor is the asset creator or carries one of the elevated role
strings; elevated role strings occur only in the lead/senior generation
bands (never in the staff band); and when the actor is neither the creator
nor elevated, the mutate result is ACCESS_DENIED on every random stream,
regardless of the clearance-and-roll outcome. -/
theorem C4_theorem :
    (∀ (n : ℕ) (docs : List Document) (emps : List Employee) (g : Rng),
      docs ≠ [] → emps ≠ [] →
      ∀ ev ∈ (generate_access_logs n docs emps g).1,
        ev.result = "SUCCESS" → (ev.action = "EDIT" ∨ ev.action = "DELETE") →
        ∃ d ∈ docs, ev.document_id = d.id ∧ ∃ e ∈ emps, ev.employee_id = e.id ∧
          (e.id = d.creator_employee_id ∨ e.role ∈ elevatedRoles)) ∧
    (∀ (n K : ℕ) (depts : List Department) (g : Rng) (j : ℕ), j < n → K * 3 ≤ j →
      ((generate_employees n K depts g).1.getD j default).role ∉ elevatedRoles) ∧
    (∀ (i : ℕ) (docs : List Document) (emps : List Employee) (g : Rng),
      (randChoice emps (randChoice docs g).2).1.role ∉ elevatedRoles →
      (randChoice emps (randChoice docs g).2).1.id ≠
        (randChoice docs g).1.creator_employee_id →
      ((genAccessLog i docs emps g).1.action = "EDIT" ∨
       (genAccessLog i docs emps g).1.action = "DELETE") →
      (genAccessLog i docs emps g).1.result = "ACCESS_DENIED") := by
  refine ⟨?_, ?_, ?_⟩
  · intro n docs emps g hd he ev hev hres hact
    obtain ⟨i, g', _, _, rfl⟩ := genList_mem _ n 0 g ev hev
    refine ⟨(randChoice docs g').1, randChoice_mem docs g' hd, rfl,
      (randChoice emps (randChoice docs g').2).1,
      randChoice_mem emps _ he, rfl, ?_⟩
    rcases (genAccessLog_success_spec i docs emps g' hres).2 hact with h | h
    · exact .inr h
    · exact .inl h
  · intro n K depts g j hj h3
    obtain ⟨g', hg⟩ := employees_getD n K depts g j hj
    rw [hg]
    obtain ⟨_, _, hrole, _, _⟩ := genEmployee_fields j K (backfillManagers depts) g'
    rw [hrole]
    have hstaff := (roleClearance_staff j K (randChoice (backfillManagers depts) g').1
      (randChoice (backfillManagers depts) g').2 (by omega)).1
    have hdisj : ∀ r ∈ staffRoles, r ∉ elevatedRoles := by decide
    exact hdisj _ hstaff
  · intro i docs emps g hrole hid hact
    exact genAccessLog_forced_denial i docs emps g hrole hid hact

/-- Claim C4, witness: a mutate attempt by a non-elevated non-creator on a
concrete stream where clearance and the roll both pass is still denied. -/
theorem C4_witness :
    (genAccessLog 0 [wDoc] [wEmp] [0, 0, 0, 2]).1.result = "ACCESS_DENIED" :=
  C4_theorem.2.2 0 [wDoc] [wEmp] [0, 0, 0, 2] (by decide) (by decide) (by decide)

/-- Claim C10: in the pipeline (documents generated, then access logs over
them), bytes_transferred is 0 unless the action is DOWNLOAD with result
SUCCESS, in which case it lies between 1024 and the referenced asset
file_size_bytes inclusive; and duration_seconds is 0 whenever the result is
not SUCCESS. -/
theorem C10_theorem (nLogs m : ℕ) (emps : List Employee)
    (depts : List Department) (now : ℕ) (g g2 : Rng) (hm : 1 ≤ m) :
    ∀ ev ∈ (generate_access_logs nLogs
        (generate_documents m emps depts now g).1 emps g2).1,
      (¬(ev.action = "DOWNLOAD" ∧ ev.result = "SUCCESS") →
        ev.bytes_transferred = 0) ∧
      ((ev.action = "DOWNLOAD" ∧ ev.result = "SUCCESS") →
        ∃ d ∈ (generate_documents m emps depts now g).1, ev.document_id = d.id ∧
          1024 ≤ ev.bytes_transferred ∧
          ev.bytes_transferred ≤ d.file_size_bytes) ∧
      (ev.result ≠ "SUCCESS" → ev.duration_seconds = 0) := by
  intro ev hev
  have hdlen : (generate_documents m emps depts now g).1.length = m :=
    genList_length _ m 0 g
  have hdne : (generate_documents m emps depts now g).1 ≠ [] := by
    intro hc
    rw [hc] at hdlen
    simp at hdlen
    omega
  obtain ⟨i, g', _, _, rfl⟩ := genList_mem _ nLogs 0 g2 ev hev
  obtain ⟨h1, h2, h3⟩ :=
    genAccessLog_bytes_duration i (generate_documents m emps depts now g).1 emps g'
  refine ⟨h1, fun hpos => ?_, h3⟩
  have hmem := randChoice_mem (generate_documents m emps depts now g).1 g' hdne
  have hfs := generate_documents_file_size m emps depts now g _ hmem
  exact ⟨(randChoice (generate_documents m emps depts now g).1 g').1, hmem, rfl,
    h2 hpos hfs⟩

/-- Claim C10, witness: a concrete successful DOWNLOAD event on a generated
document, with the byte bounds instantiated. -/
theorem C10_witness :
    ∃ d ∈ (generate_documents 1 [wEmp] [wDept] 0 []).1,
      ((generate_access_logs 1 (generate_documents 1 [wEmp] [wDept] 0 []).1 [wEmp]
          [0, 0, 0, 1]).1.getD 0 default).document_id = d.id ∧
      1024 ≤ ((generate_access_logs 1 (generate_documents 1 [wEmp] [wDept] 0 []).1
          [wEmp] [0, 0, 0, 1]).1.getD 0 default).bytes_transferred ∧
      ((generate_access_logs 1 (generate_documents 1 [wEmp] [wDept] 0 []).1 [wEmp]
          [0, 0, 0, 1]).1.getD 0 default).bytes_transferred ≤ d.file_size_bytes :=
  (C10_theorem 1 1 [wEmp] [wDept] 0 [] [0, 0, 0, 1] (by decide) _
    (getD_mem_of_lt (by decide))).2.1 (by decide)

end NQDB
